import Mathlib

/-!
Shallow embedding of the quota-enforcement engine of the xeriwo backend.

Source files embedded here:
* `models/User.js` (src/unnamed/part_000): the per-user quota state and the
  methods `resetDailyDownloadsIfNeeded`, `resetMonthlyDownloadsIfNeeded`,
  `canDownload`, `incrementDownloadCount`, `hasDownloadedRecently`.
* `routes/products.js`, `POST /api/download/:productId`: the download
  transaction (verification gate, quota gate, 30-minute dedup lookup over the
  `Download` collection, record append, counter increments, product counter).
* `routes/chatbot.js`, `POST /download/:productId`: the chatbot download path
  with its own daily gate over the embedded history list.
* `models/Download.js`, `models/Product.js`: the record and resource entities.

Modelling conventions:
* JS `Date` values are `Instant`: a calendar date plus milliseconds within the
  day.  `Date.getTime()` is modelled by `toMs`, built on the standard Gregorian
  civil-day serial number, so orderings and differences of timestamps agree
  with JS date arithmetic (up to the fixed epoch offset, which cancels in
  every comparison and difference the code performs).
* JS `new Date(y, m, d)` (a local midnight) is the instant `⟨date, 0⟩`;
  `new Date(y, m, d + 1)` and `new Date(y, m + 1, 1)` rely on JS date
  normalisation, which adds exactly one day (resp. moves to the first of the
  next month) on the `getTime` scale; `dayNumber` reflects that.
* The `YYYY-MM` month token is an injective rendering of the (year, month)
  pair, so it is modelled by the pair itself (`YearMonth`).
* Mongoose persistence: every write of the transaction is session-scoped —
  `download.save({ session })` and `product.save({ session })` explicitly,
  and the `this.save()` inside `incrementDownloadCount` implicitly, because
  the user document is hydrated by `User.findById(...).session(session)` and
  a session-bound document saves through its associated session.  All of
  them take effect only if the transaction commits; `abortTransaction` in
  the catch block discards them all.  `FailSpec` injects a failure at each
  of the four persistence points; any such failure aborts the transaction.
* User-document fields never read by the quota logic (password, otp,
  preferences, the `downloadStats` sub-document, titles/categories/ip inside
  history entries) are omitted; every field the embedded methods read or
  write is present.
-/

namespace Xeriwo

/-- A calendar date in local time, as produced by JS `new Date(y, m, d)`. -/
structure CalDate where
  y : Nat
  m : Nat
  d : Nat
deriving DecidableEq, Repr

/-- An instant: a calendar date plus milliseconds elapsed since its midnight. -/
structure Instant where
  date : CalDate
  ms : Nat
deriving DecidableEq, Repr

/-- Gregorian civil-day serial number of a calendar date (months 1–12).
This models the day component of JS `Date.getTime()`: it is strictly
monotone in the calendar order and counts real days, so all getTime
comparisons and differences in the source are preserved. -/
def dayNumber (dt : CalDate) : Nat :=
  let y := if dt.m ≤ 2 then dt.y - 1 else dt.y
  let era := y / 400
  let yoe := y - era * 400
  let mp := if dt.m ≤ 2 then dt.m + 9 else dt.m - 3
  let doy := (153 * mp + 2) / 5 + (dt.d - 1)
  era * 146097 + (yoe * 365 + yoe / 4 - yoe / 100 + doy)

/-- Milliseconds per day. -/
def msPerDay : Nat := 86400000

/-- JS `Date.getTime()`: absolute milliseconds of an instant. -/
def toMs (t : Instant) : Nat := dayNumber t.date * msPerDay + t.ms

/-- Ceiling division, modelling JS `Math.ceil(a / b)` for non-negative `a`. -/
def ceilDiv (a b : Nat) : Nat := (a + b - 1) / b

/-- The (year, month) pair behind the `YYYY-MM` month token; the rendered
string is an injective image of this pair. -/
structure YearMonth where
  y : Nat
  m : Nat
deriving DecidableEq, Repr

/-- Month token of an instant (JS template string over year and 1-based month). -/
def ymOf (t : Instant) : YearMonth := ⟨t.date.y, t.date.m⟩

/-- Subscription tier (`subscription` enum in the user schema). -/
inductive Subscription where
  | free
  | premium
deriving DecidableEq, Repr

/-- One entry of the embedded `user.downloads` history array. -/
structure HistoryEntry where
  productId : Nat
  downloadedAt : Instant
deriving DecidableEq, Repr

/-- The quota-bearing fields of a user document (`models/User.js`). -/
structure User where
  id : Nat
  isVerified : Bool
  subscription : Subscription
  premiumExpiry : Option Instant
  dailyDownloads : Nat
  dailyDownloadDate : Option Instant
  monthlyDownloads : Nat
  monthlyDownloadMonth : YearMonth
  totalDownloads : Nat
  downloads : List HistoryEntry
deriving DecidableEq, Repr

/-- Condition of the daily-reset branch in `resetDailyDownloadsIfNeeded`:
`!lastDownloadDay || today.getTime() > lastDownloadDay.getTime()`. -/
def dailyResetDue (u : User) (now : Instant) : Bool :=
  match u.dailyDownloadDate with
  | none => true
  | some last => decide (dayNumber last.date < dayNumber now.date)

/-- `userSchema.methods.resetDailyDownloadsIfNeeded` (models/User.js 190–208):
if the stored day precedes today (or is absent), zero `dailyDownloads` and
anchor `dailyDownloadDate` at today's midnight; the returned flag is
`this.dailyDownloads > 0` evaluated before the reset. -/
def resetDailyDownloadsIfNeeded (u : User) (now : Instant) : Bool × User :=
  if dailyResetDue u now then
    (decide (0 < u.dailyDownloads),
     { u with dailyDownloads := 0, dailyDownloadDate := some ⟨now.date, 0⟩ })
  else
    (false, u)

/-- Condition of the monthly-reset branch: `this.monthlyDownloadMonth !== currentMonth`. -/
def monthlyResetDue (u : User) (now : Instant) : Bool :=
  decide (u.monthlyDownloadMonth ≠ ymOf now)

/-- `userSchema.methods.resetMonthlyDownloadsIfNeeded` (models/User.js 211–227). -/
def resetMonthlyDownloadsIfNeeded (u : User) (now : Instant) : Bool × User :=
  if monthlyResetDue u now then
    (decide (0 < u.monthlyDownloads),
     { u with monthlyDownloads := 0, monthlyDownloadMonth := ymOf now })
  else
    (false, u)

/-- `isPremium && this.premiumExpiry && this.premiumExpiry > new Date()`
(models/User.js 250–251). -/
def premiumActive (u : User) (now : Instant) : Bool :=
  decide (u.subscription = Subscription.premium) &&
    (match u.premiumExpiry with
     | some e => decide (toMs now < toMs e)
     | none => false)

/-- The effective monthly limit of models/User.js 253–254:
premium-and-unexpired gets 500, everyone else 350. -/
def monthlyLimitFor (u : User) (now : Instant) : Nat :=
  if premiumActive u now then 500 else 350

/-- `Math.ceil((tomorrow - now) / (1000*60*60))` where `tomorrow` is the next
local midnight (models/User.js 276–277). -/
def hoursUntilDailyReset (now : Instant) : Nat :=
  ceilDiv ((dayNumber now.date + 1) * msPerDay - toMs now) 3600000

/-- `new Date(now.getFullYear(), now.getMonth() + 1, 1)`: midnight of the
first day of the next month. -/
def nextMonthStart (now : Instant) : Instant :=
  if now.date.m = 12 then ⟨⟨now.date.y + 1, 1, 1⟩, 0⟩
  else ⟨⟨now.date.y, now.date.m + 1, 1⟩, 0⟩

/-- `Math.ceil((nextMonth - now) / (1000*60*60*24))` (models/User.js 280–281). -/
def daysUntilMonthlyReset (now : Instant) : Nat :=
  ceilDiv (toMs (nextMonthStart now) - toMs now) msPerDay

/-- `daysLeft` of the subscription status (models/User.js 269–271); Nat
subtraction realises the `Math.max(0, …)`. -/
def premiumDaysLeft (u : User) (now : Instant) : Nat :=
  if u.subscription = Subscription.premium then
    match u.premiumExpiry with
    | some e => ceilDiv (toMs e - toMs now) msPerDay
    | none => 0
  else 0

/-- Reason string of the unverified branch (models/User.js 235). -/
def unverifiedReason : String :=
  "Email not verified - please check your email and verify your account"

/-- Default reason string (models/User.js 284). -/
def withinLimitsReason : String := "Within limits"

/-- Reason string of the exhausted daily gate (models/User.js 287). -/
def dailyLimitReason (used limit hours : Nat) : String :=
  "Daily limit reached (" ++ toString used ++ "/" ++ toString limit ++
    "). Resets automatically in " ++ toString hours ++ " hour" ++
    (if hours = 1 then "" else "s") ++ "."

/-- Reason string of the exhausted monthly gate (models/User.js 289); the
upsell tail is appended when `!isActive && isPremium === false`. -/
def monthlyLimitReason (used limit days : Nat) (upsell : Bool) : String :=
  "Monthly limit reached (" ++ toString used ++ "/" ++ toString limit ++
    "). Resets in " ++ toString days ++ " day" ++
    (if days = 1 then "" else "s") ++ "." ++
    (if upsell then " Upgrade to premium for 500 downloads/month!" else "")

/-- The `daily` block of a quota check result. -/
structure DailySnapshot where
  used : Nat
  limit : Nat
  remaining : Nat
  hoursUntilReset : Option Nat
deriving DecidableEq, Repr

/-- The `monthly` block of a quota check result. -/
structure MonthlySnapshot where
  used : Nat
  limit : Nat
  remaining : Nat
  daysUntilReset : Option Nat
deriving DecidableEq, Repr

/-- The `subscriptionStatus` block (`expiry` field omitted: never read). -/
structure SubStatus where
  active : Bool
  daysLeft : Nat
deriving DecidableEq, Repr

/-- The value returned by `userSchema.methods.canDownload`. -/
structure CheckResult where
  canDownload : Bool
  reason : String
  subscription : Subscription
  daily : DailySnapshot
  monthly : MonthlySnapshot
  total : Nat
  requiresVerification : Bool
  subscriptionStatus : SubStatus
deriving DecidableEq, Repr

/-- `userSchema.methods.canDownload` (models/User.js 230–318).  The method
mutates `this` through the two lazy resets, so the embedding returns the
check result together with the updated user. -/
def canDownload (u : User) (now : Instant) : CheckResult × User :=
  if u.isVerified = false then
    ({ canDownload := false
       reason := unverifiedReason
       subscription := u.subscription
       daily := ⟨0, 15, 15, none⟩
       monthly := ⟨0, 350, 350, none⟩
       total := u.totalDownloads
       requiresVerification := true
       subscriptionStatus := ⟨false, 0⟩ }, u)
  else
    let u2 := (resetMonthlyDownloadsIfNeeded (resetDailyDownloadsIfNeeded u now).2 now).2
    let isActive := premiumActive u2 now
    let isPrem := decide (u2.subscription = Subscription.premium)
    let dailyLimit := 15
    let monthlyLimit := if isActive then 500 else 350
    let dailyUsed := u2.dailyDownloads
    let monthlyUsed := u2.monthlyDownloads
    let dailyRemaining := dailyLimit - dailyUsed
    let monthlyRemaining := monthlyLimit - monthlyUsed
    let ok := decide (0 < dailyRemaining) && decide (0 < monthlyRemaining)
    let hrs := hoursUntilDailyReset now
    let dys := daysUntilMonthlyReset now
    let reason :=
      if ok then withinLimitsReason
      else if dailyRemaining = 0 then dailyLimitReason dailyUsed dailyLimit hrs
      else if monthlyRemaining = 0 then
        monthlyLimitReason monthlyUsed monthlyLimit dys (!isActive && !isPrem)
      else withinLimitsReason
    ({ canDownload := ok
       reason := reason
       subscription := u2.subscription
       daily := ⟨dailyUsed, dailyLimit, dailyRemaining, some hrs⟩
       monthly := ⟨monthlyUsed, monthlyLimit, monthlyRemaining, some dys⟩
       total := u2.totalDownloads
       requiresVerification := false
       subscriptionStatus := ⟨isActive, premiumDaysLeft u2 now⟩ }, u2)

/-- The persisted effect of `userSchema.methods.incrementDownloadCount`
(models/User.js 321–386): re-run both lazy resets, bump the three counters,
push one history entry.  The `downloadStats` bookkeeping is omitted (never
read by the quota logic). -/
def incrementDownloadCount (u : User) (now : Instant) (pid : Nat) : User :=
  let b := (resetMonthlyDownloadsIfNeeded (resetDailyDownloadsIfNeeded u now).2 now).2
  { b with
    dailyDownloads := b.dailyDownloads + 1
    monthlyDownloads := b.monthlyDownloads + 1
    totalDownloads := b.totalDownloads + 1
    downloads := b.downloads ++ [⟨pid, now⟩] }

/-- The quota-relevant fields of a product document (models/Product.js). -/
structure Product where
  id : Nat
  isActive : Bool
  downloads : Nat
  downloadUrl : String
deriving DecidableEq, Repr

/-- One document of the `Download` collection (models/Download.js). -/
structure DownloadRec where
  userId : Nat
  productId : Nat
  downloadDate : Instant
  downloadUrl : String
deriving DecidableEq, Repr

/-- Committed persistent state touched by one download transaction: the
requesting user, the product, and the `Download` collection. -/
structure Sys where
  user : User
  product : Product
  records : List DownloadRec
deriving DecidableEq, Repr

/-- The `Download.findOne` dedup lookup of routes/products.js 563–568:
a record of the same user and product with
`downloadDate >= now - 30*60*1000`. -/
def hasRecentRecord (recs : List DownloadRec) (uid pid : Nat) (now : Instant) : Bool :=
  recs.any fun r =>
    decide (r.userId = uid) && decide (r.productId = pid) &&
      decide (toMs now ≤ toMs r.downloadDate + 1800000)

/-- Failure injection for the four persistence points of the download
transaction, in execution order. -/
structure FailSpec where
  failDownloadSave : Bool
  failUserSave : Bool
  failProductSave : Bool
  failCommit : Bool
deriving DecidableEq, Repr

/-- The run in which every persistence step succeeds. -/
def noFail : FailSpec := ⟨false, false, false, false⟩

/-- Outcome of `POST /api/download/:productId`. -/
inductive Outcome where
  | notVerified
  | denied (check : CheckResult)
  | productUnavailable
  | replayed (downloadUrl : String) (userStats : CheckResult)
  | accepted (downloadUrl : String) (userStats : CheckResult)
  | serverError
deriving DecidableEq, Repr

/-- `POST /api/download/:productId` (routes/products.js 462–654), returning
the outcome and the committed state.  The user document is loaded with
`.session(session)`, so the `this.save()` inside `incrementDownloadCount`
runs inside the transaction like `download.save({session})` and
`product.save({session})`: a failure at any of the four persistence points
reaches the catch block, whose `abortTransaction` discards every write of
the run, leaving the committed state unchanged. -/
def consume (s : Sys) (now : Instant) (f : FailSpec) : Outcome × Sys :=
  if s.user.isVerified = false then
    (.notVerified, s)
  else
    let chk := canDownload s.user now
    if chk.1.canDownload = false then
      (.denied chk.1, s)
    else if s.product.isActive = false then
      (.productUnavailable, s)
    else if hasRecentRecord s.records s.user.id s.product.id now then
      (.replayed s.product.downloadUrl chk.1, s)
    else if f.failDownloadSave then
      (.serverError, s)
    else
      let u2 := incrementDownloadCount chk.2 now s.product.id
      if f.failUserSave then
        (.serverError, s)
      else if f.failProductSave then
        (.serverError, s)
      else if f.failCommit then
        (.serverError, s)
      else
        (.accepted s.product.downloadUrl (canDownload u2 now).1,
         { user := u2
           product := { s.product with downloads := s.product.downloads + 1 }
           records := s.records ++ [⟨s.user.id, s.product.id, now, s.product.downloadUrl⟩] })

/-- Folding a sequence of download calls over the committed state. -/
def consumeTrace (s : Sys) (calls : List (Instant × FailSpec)) : Sys :=
  calls.foldl (fun st c => (consume st c.1 c.2).2) s

/-- `process.env.DAILY_DOWNLOAD_LIMIT || 10` of routes/chatbot.js 226. -/
def chatbotDailyLimit (env : Option Nat) : Nat := env.getD 10

/-- Outcome of the chatbot download endpoint. -/
inductive ChatOutcome where
  | productUnavailable
  | limitReached (todayCount limit : Nat)
  | success (downloadUrl : String) (isRedownload : Bool)
deriving DecidableEq, Repr

/-- Same-calendar-day test of routes/chatbot.js 220–224: both instants
truncated to midnight compare equal on the `getTime` scale. -/
def sameCalendarDay (a b : Instant) : Bool :=
  decide (dayNumber a.date = dayNumber b.date)

/-- `POST /download/:productId` of routes/chatbot.js 186–293: gate on the
count of today's entries in the embedded history against
`DAILY_DOWNLOAD_LIMIT || 10`, re-downloads of a product already fetched
today change nothing, otherwise push a history entry and bump the product
counter. -/
def chatbotDownload (s : Sys) (now : Instant) (env : Option Nat) :
    ChatOutcome × Sys :=
  if s.product.isActive = false then
    (.productUnavailable, s)
  else
    let todayList := s.user.downloads.filter fun h => sameCalendarDay h.downloadedAt now
    let lim := chatbotDailyLimit env
    if lim ≤ todayList.length then
      (.limitReached todayList.length lim, s)
    else if todayList.any fun h => decide (h.productId = s.product.id) then
      (.success s.product.downloadUrl true, s)
    else
      (.success s.product.downloadUrl false,
       { s with
         user := { s.user with downloads := s.user.downloads ++ [⟨s.product.id, now⟩] }
         product := { s.product with downloads := s.product.downloads + 1 } })

/-! ### Field-preservation lemmas for the two lazy resets -/

@[simp]
theorem resetDaily_subscription (u : User) (now : Instant) :
    ((resetDailyDownloadsIfNeeded u now).2).subscription = u.subscription := by
  unfold resetDailyDownloadsIfNeeded; split <;> rfl

@[simp]
theorem resetDaily_premiumExpiry (u : User) (now : Instant) :
    ((resetDailyDownloadsIfNeeded u now).2).premiumExpiry = u.premiumExpiry := by
  unfold resetDailyDownloadsIfNeeded; split <;> rfl

@[simp]
theorem resetDaily_isVerified (u : User) (now : Instant) :
    ((resetDailyDownloadsIfNeeded u now).2).isVerified = u.isVerified := by
  unfold resetDailyDownloadsIfNeeded; split <;> rfl

@[simp]
theorem resetDaily_id (u : User) (now : Instant) :
    ((resetDailyDownloadsIfNeeded u now).2).id = u.id := by
  unfold resetDailyDownloadsIfNeeded; split <;> rfl

@[simp]
theorem resetDaily_monthlyDownloads (u : User) (now : Instant) :
    ((resetDailyDownloadsIfNeeded u now).2).monthlyDownloads = u.monthlyDownloads := by
  unfold resetDailyDownloadsIfNeeded; split <;> rfl

@[simp]
theorem resetDaily_monthlyDownloadMonth (u : User) (now : Instant) :
    ((resetDailyDownloadsIfNeeded u now).2).monthlyDownloadMonth = u.monthlyDownloadMonth := by
  unfold resetDailyDownloadsIfNeeded; split <;> rfl

@[simp]
theorem resetDaily_totalDownloads (u : User) (now : Instant) :
    ((resetDailyDownloadsIfNeeded u now).2).totalDownloads = u.totalDownloads := by
  unfold resetDailyDownloadsIfNeeded; split <;> rfl

@[simp]
theorem resetDaily_downloads (u : User) (now : Instant) :
    ((resetDailyDownloadsIfNeeded u now).2).downloads = u.downloads := by
  unfold resetDailyDownloadsIfNeeded; split <;> rfl

@[simp]
theorem resetMonthly_subscription (u : User) (now : Instant) :
    ((resetMonthlyDownloadsIfNeeded u now).2).subscription = u.subscription := by
  unfold resetMonthlyDownloadsIfNeeded; split <;> rfl

@[simp]
theorem resetMonthly_premiumExpiry (u : User) (now : Instant) :
    ((resetMonthlyDownloadsIfNeeded u now).2).premiumExpiry = u.premiumExpiry := by
  unfold resetMonthlyDownloadsIfNeeded; split <;> rfl

@[simp]
theorem resetMonthly_isVerified (u : User) (now : Instant) :
    ((resetMonthlyDownloadsIfNeeded u now).2).isVerified = u.isVerified := by
  unfold resetMonthlyDownloadsIfNeeded; split <;> rfl

@[simp]
theorem resetMonthly_id (u : User) (now : Instant) :
    ((resetMonthlyDownloadsIfNeeded u now).2).id = u.id := by
  unfold resetMonthlyDownloadsIfNeeded; split <;> rfl

@[simp]
theorem resetMonthly_dailyDownloads (u : User) (now : Instant) :
    ((resetMonthlyDownloadsIfNeeded u now).2).dailyDownloads = u.dailyDownloads := by
  unfold resetMonthlyDownloadsIfNeeded; split <;> rfl

@[simp]
theorem resetMonthly_dailyDownloadDate (u : User) (now : Instant) :
    ((resetMonthlyDownloadsIfNeeded u now).2).dailyDownloadDate = u.dailyDownloadDate := by
  unfold resetMonthlyDownloadsIfNeeded; split <;> rfl

@[simp]
theorem resetMonthly_totalDownloads (u : User) (now : Instant) :
    ((resetMonthlyDownloadsIfNeeded u now).2).totalDownloads = u.totalDownloads := by
  unfold resetMonthlyDownloadsIfNeeded; split <;> rfl

@[simp]
theorem resetMonthly_downloads (u : User) (now : Instant) :
    ((resetMonthlyDownloadsIfNeeded u now).2).downloads = u.downloads := by
  unfold resetMonthlyDownloadsIfNeeded; split <;> rfl

/-- The monthly reset is a no-op when the stored token already matches. -/
theorem resetMonthly_of_token_eq (u : User) (now : Instant)
    (h : u.monthlyDownloadMonth = ymOf now) :
    resetMonthlyDownloadsIfNeeded u now = (false, u) := by
  unfold resetMonthlyDownloadsIfNeeded monthlyResetDue
  simp [h]

/-- `premiumActive` reads only the subscription fields. -/
theorem premiumActive_congr (a b : User) (now : Instant)
    (h1 : a.subscription = b.subscription) (h2 : a.premiumExpiry = b.premiumExpiry) :
    premiumActive a now = premiumActive b now := by
  unfold premiumActive; rw [h1, h2]

/-- `monthlyLimitFor` reads only the subscription fields. -/
theorem monthlyLimitFor_congr (a b : User) (now : Instant)
    (h1 : a.subscription = b.subscription) (h2 : a.premiumExpiry = b.premiumExpiry) :
    monthlyLimitFor a now = monthlyLimitFor b now := by
  unfold monthlyLimitFor; rw [premiumActive_congr a b now h1 h2]

/-- After a daily-reset call at `t1`, a second call on the same calendar day
finds the branch condition false and changes nothing. -/
theorem resetDaily_second_call_noop (u : User) (t1 t2 : Instant)
    (h : dayNumber t1.date = dayNumber t2.date) :
    resetDailyDownloadsIfNeeded (resetDailyDownloadsIfNeeded u t1).2 t2 =
      (false, (resetDailyDownloadsIfNeeded u t1).2) := by
  unfold resetDailyDownloadsIfNeeded
  by_cases h1 : dailyResetDue u t1
  · simp only [h1, if_true]
    have h2 : dailyResetDue
        { u with dailyDownloads := 0, dailyDownloadDate := some ⟨t1.date, 0⟩ } t2 = false := by
      unfold dailyResetDue
      simp [h]
    simp [h2]
  · simp only [h1]
    simp only [Bool.false_eq_true, if_false]
    have h2 : dailyResetDue u t2 = false := by
      unfold dailyResetDue at h1 ⊢
      cases hd : u.dailyDownloadDate with
      | none => rw [hd] at h1; simp at h1
      | some last =>
          rw [hd] at h1
          simp only [decide_eq_true_eq] at h1
          simp only [decide_eq_false_iff_not]
          omega
    simp [h2]

/-! ### Concrete instances used by counterexamples and witnesses -/

/-- 2024-05-10, 10:00:00 local time. -/
def nowA : Instant := ⟨⟨2024, 5, 10⟩, 36000000⟩

/-- 2024-05-09, local midnight (the calendar day before `nowA`). -/
def prevDayA : Instant := ⟨⟨2024, 5, 9⟩, 0⟩

/-- A verified free-tier user whose anchors already sit at `nowA`'s windows. -/
def freshUser : User :=
  { id := 1
    isVerified := true
    subscription := Subscription.free
    premiumExpiry := none
    dailyDownloads := 2
    dailyDownloadDate := some ⟨nowA.date, 0⟩
    monthlyDownloads := 5
    monthlyDownloadMonth := ⟨2024, 5⟩
    totalDownloads := 7
    downloads := [] }

/-- An unverified user with non-trivial stored counters. -/
def unverifiedUser : User :=
  { freshUser with id := 2, isVerified := false, dailyDownloads := 9, monthlyDownloads := 40 }

/-- A verified user stuck at zero daily downloads whose daily anchor is stale. -/
def staleZeroUser : User :=
  { freshUser with id := 3, dailyDownloads := 0, dailyDownloadDate := some prevDayA }

/-- A verified user with a stale daily anchor and a positive daily count. -/
def staleBusyUser : User :=
  { freshUser with id := 4, dailyDownloads := 3, dailyDownloadDate := some prevDayA }

/-! ### Claim C4 -/

/-- Claim C4: `resetDailyDownloadsIfNeeded` is idempotent within a calendar
day — after one call, a second call at any instant of the same calendar day
changes neither `dailyDownloads` nor `dailyDownloadDate` (it is a no-op and
reports no reset), so across the two calls the reset branch runs at most
once. -/
theorem daily_reset_idempotent_same_day (u : User) (t1 t2 : Instant)
    (h : t1.date = t2.date) :
    resetDailyDownloadsIfNeeded (resetDailyDownloadsIfNeeded u t1).2 t2 =
      (false, (resetDailyDownloadsIfNeeded u t1).2) :=
  resetDaily_second_call_noop u t1 t2 (by rw [h])

/-- Witness for claim C4 at a concrete user and two instants of 2024-05-10. -/
theorem daily_reset_idempotent_same_day_witness :
    (⟨⟨2024, 5, 10⟩, 100⟩ : Instant).date = (⟨⟨2024, 5, 10⟩, 50000000⟩ : Instant).date ∧
      resetDailyDownloadsIfNeeded
          (resetDailyDownloadsIfNeeded staleBusyUser ⟨⟨2024, 5, 10⟩, 100⟩).2
          ⟨⟨2024, 5, 10⟩, 50000000⟩ =
        (false, (resetDailyDownloadsIfNeeded staleBusyUser ⟨⟨2024, 5, 10⟩, 100⟩).2) :=
  ⟨rfl, daily_reset_idempotent_same_day staleBusyUser _ _ rfl⟩

/-! ### Claim C5 -/

/-- Counterexample to claim C5: on an account whose daily anchor precedes
today and whose `dailyDownloads` is already 0, the call performs its reset
(the anchor moves to today's midnight) yet returns `false`, not `true`. -/
theorem daily_reset_returns_false_on_zero_count :
    dayNumber prevDayA.date < dayNumber nowA.date ∧
      staleZeroUser.dailyDownloadDate = some prevDayA ∧
      (resetDailyDownloadsIfNeeded staleZeroUser nowA).2.dailyDownloadDate =
        some ⟨nowA.date, 0⟩ ∧
      (resetDailyDownloadsIfNeeded staleZeroUser nowA).1 = false := by
  refine ⟨by decide, rfl, ?_, ?_⟩ <;> decide

/-- Claim C5 as amended: when the stored daily anchor is absent or its
calendar day precedes `now`'s, the call zeroes `dailyDownloads` and anchors
`dailyDownloadDate` at today's midnight, but its boolean result is
`dailyDownloads > 0` evaluated before the reset — `true` only when there was
a positive count to clear, `false` when the count was already 0. -/
theorem daily_reset_spec_amended (u : User) (now : Instant)
    (h : u.dailyDownloadDate = none ∨
      ∃ t, u.dailyDownloadDate = some t ∧ dayNumber t.date < dayNumber now.date) :
    resetDailyDownloadsIfNeeded u now =
      (decide (0 < u.dailyDownloads),
       { u with dailyDownloads := 0, dailyDownloadDate := some ⟨now.date, 0⟩ }) := by
  have hdue : dailyResetDue u now = true := by
    unfold dailyResetDue
    rcases h with h | ⟨t, ht, hlt⟩
    · rw [h]
    · rw [ht]; simpa using hlt
  unfold resetDailyDownloadsIfNeeded
  rw [hdue]
  simp

/-- Witness for the amended claim C5 at a stale account with 3 daily
downloads: the reset happens and the call returns `true`. -/
theorem daily_reset_spec_amended_witness :
    (staleBusyUser.dailyDownloadDate = none ∨
      ∃ t, staleBusyUser.dailyDownloadDate = some t ∧
        dayNumber t.date < dayNumber nowA.date) ∧
      resetDailyDownloadsIfNeeded staleBusyUser nowA =
        (decide (0 < staleBusyUser.dailyDownloads),
         { staleBusyUser with
             dailyDownloads := 0, dailyDownloadDate := some ⟨nowA.date, 0⟩ }) :=
  ⟨Or.inr ⟨prevDayA, rfl, by decide⟩,
    daily_reset_spec_amended staleBusyUser nowA (Or.inr ⟨prevDayA, rfl, by decide⟩)⟩

/-! ### Claim C10 -/

/-- Claim C10: for an unverified account `canDownload` returns ineligible
with the verification-required reason, reports a `used = 0`, full-remaining
snapshot for both windows regardless of the stored counters, and returns the
account unchanged — it exits before either lazy window reset runs. -/
theorem unverified_check_no_rollover (u : User) (now : Instant)
    (h : u.isVerified = false) :
    canDownload u now =
      ({ canDownload := false
         reason := unverifiedReason
         subscription := u.subscription
         daily := ⟨0, 15, 15, none⟩
         monthly := ⟨0, 350, 350, none⟩
         total := u.totalDownloads
         requiresVerification := true
         subscriptionStatus := ⟨false, 0⟩ }, u) := by
  unfold canDownload
  rw [h]
  simp

/-- Witness for claim C10 at a concrete unverified account with stored
counters 9 and 40. -/
theorem unverified_check_no_rollover_witness :
    unverifiedUser.isVerified = false ∧
      canDownload unverifiedUser nowA =
        ({ canDownload := false
           reason := unverifiedReason
           subscription := unverifiedUser.subscription
           daily := ⟨0, 15, 15, none⟩
           monthly := ⟨0, 350, 350, none⟩
           total := unverifiedUser.totalDownloads
           requiresVerification := true
           subscriptionStatus := ⟨false, 0⟩ }, unverifiedUser) :=
  ⟨rfl, unverified_check_no_rollover unverifiedUser nowA rfl⟩

/-! ### Claim C6 -/

/-- Unfolding of the premium-activity test. -/
theorem premiumActive_iff (u : User) (now : Instant) :
    premiumActive u now = true ↔
      u.subscription = Subscription.premium ∧
        ∃ e, u.premiumExpiry = some e ∧ toMs now < toMs e := by
  unfold premiumActive
  cases he : u.premiumExpiry with
  | none => simp [he]
  | some e => simp [he]

/-- The effective monthly limit is the premium value exactly on active premium. -/
theorem monthlyLimitFor_eq_500_iff (u : User) (now : Instant) :
    monthlyLimitFor u now = 500 ↔ premiumActive u now = true := by
  unfold monthlyLimitFor
  split <;> simp_all

/-- A verified premium-and-expired user used in several witnesses. -/
def expiredPremiumUser : User :=
  { freshUser with id := 5, subscription := Subscription.premium, premiumExpiry := some prevDayA }

/-- Claim C6: the effective monthly limit is the premium value 500 exactly
when the tier is premium and the expiry lies strictly in the future; a
premium account whose expiry has passed gets the free value 350; and for
verified accounts `canDownload` reports exactly this limit in its monthly
snapshot. -/
theorem monthly_limit_premium_iff (u : User) (now : Instant) :
    (monthlyLimitFor u now = 500 ↔
      u.subscription = Subscription.premium ∧
        ∃ e, u.premiumExpiry = some e ∧ toMs now < toMs e) ∧
    (∀ e, u.subscription = Subscription.premium → u.premiumExpiry = some e →
      toMs e ≤ toMs now → monthlyLimitFor u now = 350) ∧
    (u.isVerified = true →
      ((canDownload u now).1).monthly.limit = monthlyLimitFor u now) := by
  refine ⟨?_, ?_, ?_⟩
  · rw [monthlyLimitFor_eq_500_iff, premiumActive_iff]
  · intro e hs he hle
    have hp : premiumActive u now = false := by
      rw [Bool.eq_false_iff]
      intro hp
      rw [premiumActive_iff] at hp
      obtain ⟨_, e2, he2, hlt⟩ := hp
      rw [he] at he2
      injection he2 with he3
      subst he3
      omega
    unfold monthlyLimitFor
    rw [hp]
    simp
  · intro hv
    unfold canDownload
    split
    · next hfalse => rw [hv] at hfalse; cases hfalse
    · next =>
        have hcongr :
            premiumActive
                ((resetMonthlyDownloadsIfNeeded (resetDailyDownloadsIfNeeded u now).2 now).2)
                now = premiumActive u now :=
          premiumActive_congr _ u now (by simp) (by simp)
        simp only [hcongr, monthlyLimitFor]

/-- Witness for claim C6 at a premium account expired the previous day. -/
theorem monthly_limit_premium_iff_witness :
    monthlyLimitFor expiredPremiumUser nowA = 350 ∧
      ((canDownload expiredPremiumUser nowA).1).monthly.limit =
        monthlyLimitFor expiredPremiumUser nowA :=
  ⟨(monthly_limit_premium_iff expiredPremiumUser nowA).2.1 prevDayA rfl rfl (by decide),
    (monthly_limit_premium_iff expiredPremiumUser nowA).2.2 rfl⟩

/-! ### Claim C7 -/

/-- Nat truncated subtraction seen in the integers is a clamped difference. -/
theorem natSub_cast_max (a b : Nat) : ((a - b : Nat) : Int) = max 0 ((a : Int) - b) := by
  rcases Nat.le_total b a with h | h
  · rw [Nat.cast_sub h, max_eq_right (by omega)]
  · rw [Nat.sub_eq_zero_of_le h, max_eq_left (by omega)]
    simp

/-- Counterexample to claim C7 as stated over every account: an unverified
account is reported ineligible although both reported windows have positive
remaining budget, so eligibility is not equivalent to the conjunction of the
two remaining-positivity tests. -/
theorem unverified_ineligible_with_full_remaining :
    ((canDownload unverifiedUser nowA).1).canDownload = false ∧
      0 < ((canDownload unverifiedUser nowA).1).daily.remaining ∧
      0 < ((canDownload unverifiedUser nowA).1).monthly.remaining := by
  decide

/-- Claim C7 as amended: for every verified account and instant,
`canDownload` reports `remaining = max(0, limit - used)` for each window and
is eligible exactly when both reported remainders are positive; unverified
accounts are ineligible regardless of the reported remainders. -/
theorem remaining_and_eligibility_for_verified (u : User) (now : Instant)
    (hv : u.isVerified = true) :
    (((canDownload u now).1).daily.remaining : Int) =
      max 0 ((((canDownload u now).1).daily.limit : Int) -
        ((canDownload u now).1).daily.used) ∧
    (((canDownload u now).1).monthly.remaining : Int) =
      max 0 ((((canDownload u now).1).monthly.limit : Int) -
        ((canDownload u now).1).monthly.used) ∧
    (((canDownload u now).1).canDownload = true ↔
      0 < ((canDownload u now).1).daily.remaining ∧
        0 < ((canDownload u now).1).monthly.remaining) := by
  unfold canDownload
  split
  · next hfalse => rw [hv] at hfalse; cases hfalse
  · next =>
      refine ⟨natSub_cast_max _ _, natSub_cast_max _ _, ?_⟩
      simp

/-- Witness for the amended claim C7 at a concrete verified account. -/
theorem remaining_and_eligibility_for_verified_witness :
    freshUser.isVerified = true ∧
      (((canDownload freshUser nowA).1).canDownload = true ↔
        0 < ((canDownload freshUser nowA).1).daily.remaining ∧
          0 < ((canDownload freshUser nowA).1).monthly.remaining) :=
  ⟨rfl, (remaining_and_eligibility_for_verified freshUser nowA rfl).2.2⟩

/-! ### Claim C8 -/

/-- The user state after both lazy resets, as left behind by the verified
path of `canDownload`. -/
def postResetUser (u : User) (now : Instant) : User :=
  (resetMonthlyDownloadsIfNeeded (resetDailyDownloadsIfNeeded u now).2 now).2

/-- Explicit characterisation of `canDownload` on a verified account. -/
theorem canDownload_verified (u : User) (now : Instant) (hv : u.isVerified = true) :
    canDownload u now =
      ({ canDownload := decide (0 < 15 - (postResetUser u now).dailyDownloads) &&
           decide (0 < monthlyLimitFor u now - (postResetUser u now).monthlyDownloads)
         reason :=
           if decide (0 < 15 - (postResetUser u now).dailyDownloads) &&
               decide (0 < monthlyLimitFor u now - (postResetUser u now).monthlyDownloads) then
             withinLimitsReason
           else if 15 - (postResetUser u now).dailyDownloads = 0 then
             dailyLimitReason (postResetUser u now).dailyDownloads 15 (hoursUntilDailyReset now)
           else if monthlyLimitFor u now - (postResetUser u now).monthlyDownloads = 0 then
             monthlyLimitReason (postResetUser u now).monthlyDownloads (monthlyLimitFor u now)
               (daysUntilMonthlyReset now)
               (!premiumActive u now && !decide (u.subscription = Subscription.premium))
           else withinLimitsReason
         subscription := u.subscription
         daily := ⟨(postResetUser u now).dailyDownloads, 15,
           15 - (postResetUser u now).dailyDownloads, some (hoursUntilDailyReset now)⟩
         monthly := ⟨(postResetUser u now).monthlyDownloads, monthlyLimitFor u now,
           monthlyLimitFor u now - (postResetUser u now).monthlyDownloads,
           some (daysUntilMonthlyReset now)⟩
         total := u.totalDownloads
         requiresVerification := false
         subscriptionStatus := ⟨premiumActive u now,
           premiumDaysLeft (postResetUser u now) now⟩ },
       postResetUser u now) := by
  have hpa : premiumActive
      ((resetMonthlyDownloadsIfNeeded (resetDailyDownloadsIfNeeded u now).2 now).2) now =
      premiumActive u now :=
    premiumActive_congr _ u now (by simp) (by simp)
  have hsub : ((resetMonthlyDownloadsIfNeeded
      (resetDailyDownloadsIfNeeded u now).2 now).2).subscription = u.subscription := by simp
  have htot : ((resetMonthlyDownloadsIfNeeded
      (resetDailyDownloadsIfNeeded u now).2 now).2).totalDownloads = u.totalDownloads := by simp
  unfold canDownload
  split
  · next hfalse => rw [hv] at hfalse; cases hfalse
  · next =>
      simp only [postResetUser, monthlyLimitFor, hpa, hsub, htot]

/-- Counterexample to claim C8 as stated over every ineligible result: an
unverified account yields an ineligible result whose reason is the
verification message, while neither window is exhausted, so the reason names
no exhausted gate and carries no reset countdown. -/
theorem unverified_reason_names_no_gate :
    ((canDownload unverifiedUser nowA).1).canDownload = false ∧
      ((canDownload unverifiedUser nowA).1).reason = unverifiedReason ∧
      0 < ((canDownload unverifiedUser nowA).1).daily.remaining ∧
      0 < ((canDownload unverifiedUser nowA).1).monthly.remaining ∧
      unverifiedReason ≠
        dailyLimitReason (((canDownload unverifiedUser nowA).1).daily.used) 15
          (hoursUntilDailyReset nowA) ∧
      unverifiedReason ≠
        monthlyLimitReason (((canDownload unverifiedUser nowA).1).monthly.used) 350
          (daysUntilMonthlyReset nowA) true ∧
      unverifiedReason ≠
        monthlyLimitReason (((canDownload unverifiedUser nowA).1).monthly.used) 350
          (daysUntilMonthlyReset nowA) false := by
  refine ⟨by decide, by decide, by decide, by decide, ?_, ?_, ?_⟩ <;> decide

/-- Claim C8 as amended: whenever `canDownload` reports ineligible for a
verified account, the reason names the first exhausted gate with daily
checked before monthly, carrying the ceiling of the time left to that gate's
next calendar boundary (hours to next midnight for the daily gate, days to
the first of the next month for the monthly gate); an unverified account
instead gets the verification message. -/
theorem reason_gate_order_for_verified (u : User) (now : Instant)
    (hv : u.isVerified = true)
    (hno : ((canDownload u now).1).canDownload = false) :
    (((canDownload u now).1).daily.remaining = 0 ∧
      ((canDownload u now).1).reason =
        dailyLimitReason (((canDownload u now).1).daily.used) 15
          (hoursUntilDailyReset now)) ∨
    (0 < ((canDownload u now).1).daily.remaining ∧
      ((canDownload u now).1).monthly.remaining = 0 ∧
      ((canDownload u now).1).reason =
        monthlyLimitReason (((canDownload u now).1).monthly.used)
          (((canDownload u now).1).monthly.limit) (daysUntilMonthlyReset now)
          (!premiumActive u now && !decide (u.subscription = Subscription.premium))) := by
  rw [canDownload_verified u now hv] at hno ⊢
  dsimp only at hno ⊢
  by_cases hd : 15 - (postResetUser u now).dailyDownloads = 0
  · left
    refine ⟨hd, ?_⟩
    rw [hno]
    simp only [Bool.false_eq_true, if_false]
    rw [if_pos hd]
  · right
    have hdp : 0 < 15 - (postResetUser u now).dailyDownloads := by omega
    have hm : monthlyLimitFor u now - (postResetUser u now).monthlyDownloads = 0 := by
      rcases Bool.and_eq_false_iff.mp hno with h | h
      · exfalso
        rw [decide_eq_false_iff_not] at h
        omega
      · rw [decide_eq_false_iff_not] at h
        omega
    refine ⟨hdp, hm, ?_⟩
    rw [hno]
    simp only [Bool.false_eq_true, if_false]
    rw [if_neg hd, if_pos hm]

/-- A verified account with the daily window exhausted at `nowA`. -/
def exhaustedDailyUser : User := { freshUser with id := 6, dailyDownloads := 15 }

/-- Witness for the amended claim C8 at an account with `dailyDownloads = 15`:
the reason is the daily-gate message with the ceiled hour countdown. -/
theorem reason_gate_order_for_verified_witness :
    exhaustedDailyUser.isVerified = true ∧
      ((canDownload exhaustedDailyUser nowA).1).canDownload = false ∧
      ((((canDownload exhaustedDailyUser nowA).1).daily.remaining = 0 ∧
        ((canDownload exhaustedDailyUser nowA).1).reason =
          dailyLimitReason (((canDownload exhaustedDailyUser nowA).1).daily.used) 15
            (hoursUntilDailyReset nowA)) ∨
      (0 < ((canDownload exhaustedDailyUser nowA).1).daily.remaining ∧
        ((canDownload exhaustedDailyUser nowA).1).monthly.remaining = 0 ∧
        ((canDownload exhaustedDailyUser nowA).1).reason =
          monthlyLimitReason (((canDownload exhaustedDailyUser nowA).1).monthly.used)
            (((canDownload exhaustedDailyUser nowA).1).monthly.limit)
            (daysUntilMonthlyReset nowA)
            (!premiumActive exhaustedDailyUser nowA &&
              !decide (exhaustedDailyUser.subscription = Subscription.premium)))) :=
  ⟨rfl, by decide, reason_gate_order_for_verified exhaustedDailyUser nowA rfl (by decide)⟩

/-! ### Claim C9 -/

/-- Twelve same-day history entries at `nowA`. -/
def chatHistory : List HistoryEntry :=
  (List.range 12).map fun i => ⟨100 + i, ⟨nowA.date, 1000 * i⟩⟩

/-- A verified account that already consumed 12 downloads today. -/
def chatUser : User :=
  { freshUser with id := 7, dailyDownloads := 12, downloads := chatHistory }

/-- An active product used by the chatbot counterexample. -/
def chatProduct : Product :=
  { id := 201, isActive := true, downloads := 40, downloadUrl := "https product url" }

/-- System state for the chatbot counterexample. -/
def chatSys : Sys := { user := chatUser, product := chatProduct, records := [] }

/-- Counterexample to claim C9: with 12 downloads consumed today, the
quota-model path still reports eligibility under its fixed limit of 15,
while the chatbot download path rejects the same subject under its default
limit of 10 — the two download-gating paths do not enforce the same per-day
limit. -/
theorem daily_limits_differ_across_paths :
    ((canDownload chatUser nowA).1).canDownload = true ∧
      ((canDownload chatUser nowA).1).daily.limit = 15 ∧
      chatbotDailyLimit none = 10 ∧
      (chatbotDownload chatSys nowA none).1 = ChatOutcome.limitReached 12 10 ∧
      (chatbotDownload chatSys nowA none).2 = chatSys := by
  refine ⟨by decide, by decide, rfl, ?_, ?_⟩ <;> decide

/-- Claim C9 as amended: within the quota-model path the daily limit is the
fixed constant 15 for every account and tier, but the chatbot download path
gates on a separately configured constant whose default is 10, so the two
code paths do not apply one identical daily limit. -/
theorem daily_limit_constants_amended (u : User) (now : Instant)
    (hv : u.isVerified = true) :
    ((canDownload u now).1).daily.limit = 15 ∧
      chatbotDailyLimit none = 10 ∧
      chatbotDailyLimit none ≠ ((canDownload u now).1).daily.limit := by
  rw [canDownload_verified u now hv]
  refine ⟨rfl, rfl, ?_⟩
  show chatbotDailyLimit none ≠ 15
  decide

/-- Witness for the amended claim C9 at a concrete verified account. -/
theorem daily_limit_constants_amended_witness :
    freshUser.isVerified = true ∧
      ((canDownload freshUser nowA).1).daily.limit = 15 ∧
      chatbotDailyLimit none = 10 ∧
      chatbotDailyLimit none ≠ ((canDownload freshUser nowA).1).daily.limit :=
  ⟨rfl, daily_limit_constants_amended freshUser nowA rfl⟩

/-! ### Shared concrete transaction state -/

/-- An active product for the transaction scenarios. -/
def baseProduct : Product :=
  { id := 300, isActive := true, downloads := 77, downloadUrl := "https download url" }

/-- Committed state before a download transaction. -/
def baseSys : Sys := { user := freshUser, product := baseProduct, records := [] }

/-! ### Projection lemmas for the transaction path -/

@[simp]
theorem increment_id (u : User) (now : Instant) (pid : Nat) :
    (incrementDownloadCount u now pid).id = u.id := by
  unfold incrementDownloadCount; simp

@[simp]
theorem increment_isVerified (u : User) (now : Instant) (pid : Nat) :
    (incrementDownloadCount u now pid).isVerified = u.isVerified := by
  unfold incrementDownloadCount; simp

@[simp]
theorem increment_subscription (u : User) (now : Instant) (pid : Nat) :
    (incrementDownloadCount u now pid).subscription = u.subscription := by
  unfold incrementDownloadCount; simp

@[simp]
theorem increment_premiumExpiry (u : User) (now : Instant) (pid : Nat) :
    (incrementDownloadCount u now pid).premiumExpiry = u.premiumExpiry := by
  unfold incrementDownloadCount; simp

@[simp]
theorem increment_totalDownloads (u : User) (now : Instant) (pid : Nat) :
    (incrementDownloadCount u now pid).totalDownloads = u.totalDownloads + 1 := by
  unfold incrementDownloadCount; simp

@[simp]
theorem canDownload_snd_id (u : User) (now : Instant) :
    ((canDownload u now).2).id = u.id := by
  unfold canDownload; split
  · rfl
  · simp

@[simp]
theorem canDownload_snd_isVerified (u : User) (now : Instant) :
    ((canDownload u now).2).isVerified = u.isVerified := by
  unfold canDownload; split
  · rfl
  · simp

@[simp]
theorem canDownload_snd_subscription (u : User) (now : Instant) :
    ((canDownload u now).2).subscription = u.subscription := by
  unfold canDownload; split
  · rfl
  · simp

@[simp]
theorem canDownload_snd_premiumExpiry (u : User) (now : Instant) :
    ((canDownload u now).2).premiumExpiry = u.premiumExpiry := by
  unfold canDownload; split
  · rfl
  · simp

@[simp]
theorem canDownload_snd_totalDownloads (u : User) (now : Instant) :
    ((canDownload u now).2).totalDownloads = u.totalDownloads := by
  unfold canDownload; split
  · rfl
  · simp

/-! ### Claim C3 -/

/-- The state committed by an accepted download transaction at `now`:
one appended `Download` record, the incremented (and possibly lazily reset)
user, and the bumped product counter. -/
def acceptedState (s : Sys) (now : Instant) : Sys :=
  { user := incrementDownloadCount ((canDownload s.user now).2) now s.product.id
    product := { s.product with downloads := s.product.downloads + 1 }
    records := s.records ++ [⟨s.user.id, s.product.id, now, s.product.downloadUrl⟩] }

/-- A failure-free run on a verified, eligible account with an active
product and no recent duplicate record is Accepted and commits exactly
`acceptedState`. -/
theorem consume_accepts (s : Sys) (now : Instant)
    (hv : s.user.isVerified = true)
    (h1ok : ((canDownload s.user now).1).canDownload = true)
    (hact : s.product.isActive = true)
    (hnorec : hasRecentRecord s.records s.user.id s.product.id now = false) :
    consume s now noFail =
      (.accepted s.product.downloadUrl
        ((canDownload (acceptedState s now).user now).1), acceptedState s now) := by
  simp [consume, hv, h1ok, hact, hnorec, noFail, acceptedState]

/-- Claim C3: on an eligible account, a first download of a product is
Accepted and commits exactly one record and one set of increments; a second
call for the same (subject, product) pair within 30 minutes — on an account
still eligible at that call — is Replayed with the same payload URL and
changes nothing: across both calls exactly one record and one increment set
exist. -/
theorem replay_within_window (s : Sys) (t1 t2 : Instant)
    (hv : s.user.isVerified = true)
    (hact : s.product.isActive = true)
    (h1ok : ((canDownload s.user t1).1).canDownload = true)
    (hnorec : hasRecentRecord s.records s.user.id s.product.id t1 = false)
    (hwin : toMs t2 ≤ toMs t1 + 1800000)
    (h2ok : ((canDownload (acceptedState s t1).user t2).1).canDownload = true) :
    consume s t1 noFail =
      (.accepted s.product.downloadUrl
        ((canDownload (acceptedState s t1).user t1).1), acceptedState s t1) ∧
    consume (acceptedState s t1) t2 noFail =
      (.replayed s.product.downloadUrl
        ((canDownload (acceptedState s t1).user t2).1), acceptedState s t1) ∧
    (acceptedState s t1).records =
      s.records ++ [⟨s.user.id, s.product.id, t1, s.product.downloadUrl⟩] ∧
    (acceptedState s t1).user.totalDownloads = s.user.totalDownloads + 1 ∧
    (acceptedState s t1).product.downloads = s.product.downloads + 1 := by
  have h2ok' := h2ok
  simp only [acceptedState] at h2ok'
  refine ⟨consume_accepts s t1 hv h1ok hact hnorec, ?_, ?_, ?_, ?_⟩
  · simp [consume, hv, h2ok', hact, noFail, acceptedState, hasRecentRecord, hwin]
  · rfl
  · simp [acceptedState]
  · rfl

/-- Ten minutes after `nowA`, same calendar day. -/
def laterA : Instant := ⟨⟨2024, 5, 10⟩, 36600000⟩

/-- Witness for claim C3 at the concrete base system: the second call ten
minutes after the accepted first one is Replayed with the original payload
and leaves the committed state untouched. -/
theorem replay_within_window_witness :
    toMs laterA ≤ toMs nowA + 1800000 ∧
      consume (acceptedState baseSys nowA) laterA noFail =
        (.replayed baseSys.product.downloadUrl
          ((canDownload (acceptedState baseSys nowA).user laterA).1),
         acceptedState baseSys nowA) :=
  ⟨by decide,
    (replay_within_window baseSys nowA laterA rfl rfl (by decide) (by decide)
        (by decide) (by decide)).2.1⟩

/-! ### Claim C2 -/

/-- After the two lazy resets the month token always matches `now`. -/
theorem postReset_token (u : User) (now : Instant) :
    (postResetUser u now).monthlyDownloadMonth = ymOf now := by
  unfold postResetUser resetMonthlyDownloadsIfNeeded
  split
  · rfl
  · next hdue =>
      unfold monthlyResetDue at hdue
      simp only [decide_eq_true_eq, Decidable.not_not] at hdue
      simpa using hdue

/-- Right after a daily reset at `now`, the reset branch is no longer due. -/
theorem dailyResetDue_after (u : User) (now : Instant) :
    dailyResetDue ((resetDailyDownloadsIfNeeded u now).2) now = false := by
  unfold resetDailyDownloadsIfNeeded
  by_cases h : dailyResetDue u now
  · simp only [h, if_true]
    unfold dailyResetDue
    simp
  · have hf : dailyResetDue u now = false := by
      revert h; cases dailyResetDue u now <;> simp
    simp only [hf, Bool.false_eq_true, if_false]

/-- After both lazy resets at `now`, the daily reset is no longer due. -/
theorem dailyResetDue_postReset (u : User) (now : Instant) :
    dailyResetDue (postResetUser u now) now = false := by
  have hd : (postResetUser u now).dailyDownloadDate =
      ((resetDailyDownloadsIfNeeded u now).2).dailyDownloadDate := by
    simp [postResetUser]
  have h := dailyResetDue_after u now
  unfold dailyResetDue at h ⊢
  rw [hd]
  exact h

/-- On the already-reset user, `incrementDownloadCount` is a pure bump of
the three counters plus one history entry. -/
theorem increment_on_postReset (u : User) (now : Instant) (pid : Nat) :
    incrementDownloadCount (postResetUser u now) now pid =
      { postResetUser u now with
        dailyDownloads := (postResetUser u now).dailyDownloads + 1
        monthlyDownloads := (postResetUser u now).monthlyDownloads + 1
        totalDownloads := (postResetUser u now).totalDownloads + 1
        downloads := (postResetUser u now).downloads ++ [⟨pid, now⟩] } := by
  unfold incrementDownloadCount resetDailyDownloadsIfNeeded
  rw [dailyResetDue_postReset]
  simp only [Bool.false_eq_true, if_false]
  rw [resetMonthly_of_token_eq _ now (postReset_token u now)]

/-- Claim C2: every download transaction is all-or-nothing.  A run that is
not Accepted — Denied, Replayed, unverified, unavailable product, or a
persistence failure at any of the four write points after the in-transaction
eligibility re-check — leaves the committed state completely unchanged: no
counter moves and the record store keeps its contents.  An Accepted run
commits the four writes together: exactly one appended `Download` record,
the three user counters each one above their post-reset values, and the
product counter one above its old value. -/
theorem consume_atomic (s : Sys) (now : Instant) (f : FailSpec) :
    ((consume s now f).2 = s ∧
      ∀ url c, (consume s now f).1 ≠ Outcome.accepted url c) ∨
    ((consume s now f).1 =
        Outcome.accepted s.product.downloadUrl
          ((canDownload (acceptedState s now).user now).1) ∧
      (consume s now f).2 = acceptedState s now ∧
      (acceptedState s now).records =
        s.records ++ [⟨s.user.id, s.product.id, now, s.product.downloadUrl⟩] ∧
      (acceptedState s now).user.dailyDownloads =
        (postResetUser s.user now).dailyDownloads + 1 ∧
      (acceptedState s now).user.monthlyDownloads =
        (postResetUser s.user now).monthlyDownloads + 1 ∧
      (acceptedState s now).user.totalDownloads = s.user.totalDownloads + 1 ∧
      (acceptedState s now).product.downloads = s.product.downloads + 1) := by
  by_cases hb : s.user.isVerified = false
  · left
    constructor
    · simp [consume, hb]
    · intro url c
      simp [consume, hb]
  · have hv : s.user.isVerified = true := by
      revert hb; cases s.user.isVerified <;> simp
    by_cases hok : ((canDownload s.user now).1).canDownload = false
    · left
      constructor
      · simp [consume, hv, hok]
      · intro url c
        simp [consume, hv, hok]
    · have hok' : ((canDownload s.user now).1).canDownload = true := by
        revert hok; cases ((canDownload s.user now).1).canDownload <;> simp
      by_cases ha : s.product.isActive = false
      · left
        constructor
        · simp [consume, hv, hok', ha]
        · intro url c
          simp [consume, hv, hok', ha]
      · by_cases hr : hasRecentRecord s.records s.user.id s.product.id now = true
        · left
          constructor
          · simp [consume, hv, hok', ha, hr]
          · intro url c
            simp [consume, hv, hok', ha, hr]
        · by_cases f1 : f.failDownloadSave = true
          · left
            constructor
            · simp [consume, hv, hok', ha, hr, f1]
            · intro url c
              simp [consume, hv, hok', ha, hr, f1]
          · by_cases f2 : f.failUserSave = true
            · left
              constructor
              · simp [consume, hv, hok', ha, hr, f1, f2]
              · intro url c
                simp [consume, hv, hok', ha, hr, f1, f2]
            · by_cases f3 : f.failProductSave = true
              · left
                constructor
                · simp [consume, hv, hok', ha, hr, f1, f2, f3]
                · intro url c
                  simp [consume, hv, hok', ha, hr, f1, f2, f3]
              · by_cases f4 : f.failCommit = true
                · left
                  constructor
                  · simp [consume, hv, hok', ha, hr, f1, f2, f3, f4]
                  · intro url c
                    simp [consume, hv, hok', ha, hr, f1, f2, f3, f4]
                · right
                  have hsnd : (canDownload s.user now).2 = postResetUser s.user now := by
                    rw [canDownload_verified s.user now hv]
                  have hdaily : (acceptedState s now).user.dailyDownloads =
                      (postResetUser s.user now).dailyDownloads + 1 := by
                    simp only [acceptedState, hsnd, increment_on_postReset]
                  have hmonthly : (acceptedState s now).user.monthlyDownloads =
                      (postResetUser s.user now).monthlyDownloads + 1 := by
                    simp only [acceptedState, hsnd, increment_on_postReset]
                  refine ⟨?_, ?_, rfl, hdaily, hmonthly, ?_, rfl⟩
                  · simp [consume, hv, hok', ha, hr, f1, f2, f3, f4, acceptedState]
                  · simp [consume, hv, hok', ha, hr, f1, f2, f3, f4, acceptedState]
                  · simp [acceptedState]

/-! ### Claim C1 -/

/-- When the stored token already matches, the resets leave the monthly
counter alone. -/
theorem postReset_monthly_of_token (u : User) (now : Instant)
    (hm : u.monthlyDownloadMonth = ymOf now) :
    (postResetUser u now).monthlyDownloads = u.monthlyDownloads := by
  unfold postResetUser
  rw [resetMonthly_of_token_eq _ now (by simp [hm])]
  simp

/-- An eligible verified check in the current month means the monthly
counter is strictly below the effective limit. -/
theorem canDownload_monthly_lt (u : User) (now : Instant)
    (hv : u.isVerified = true) (hm : u.monthlyDownloadMonth = ymOf now)
    (hok : ((canDownload u now).1).canDownload = true) :
    u.monthlyDownloads < monthlyLimitFor u now := by
  rw [canDownload_verified u now hv] at hok
  dsimp only at hok
  rw [Bool.and_eq_true] at hok
  have h2 := hok.2
  rw [decide_eq_true_eq, postReset_monthly_of_token u now hm] at h2
  omega

/-- A consume call on a verified account whose monthly counter has reached
the effective limit in the current month is Denied and leaves the committed
state unchanged. -/
theorem consume_at_limit (s : Sys) (now : Instant) (f : FailSpec)
    (hv : s.user.isVerified = true)
    (hm : s.user.monthlyDownloadMonth = ymOf now)
    (hL : monthlyLimitFor s.user now ≤ s.user.monthlyDownloads) :
    consume s now f = (.denied ((canDownload s.user now).1), s) := by
  have hno : ((canDownload s.user now).1).canDownload = false := by
    rw [canDownload_verified s.user now hv]
    dsimp only
    apply Bool.and_eq_false_iff.mpr
    right
    rw [decide_eq_false_iff_not, postReset_monthly_of_token s.user now hm]
    omega
  simp [consume, hv, hno]

/-- Incrementing in the current month adds exactly one to the monthly
counter. -/
theorem increment_monthly_of_token (w : User) (now : Instant) (pid : Nat)
    (ht : w.monthlyDownloadMonth = ymOf now) :
    (incrementDownloadCount w now pid).monthlyDownloads = w.monthlyDownloads + 1 := by
  unfold incrementDownloadCount
  rw [resetMonthly_of_token_eq _ now (by simp [ht])]
  simp

/-- Incrementing in the current month keeps the month token. -/
theorem increment_token_of_token (w : User) (now : Instant) (pid : Nat)
    (ht : w.monthlyDownloadMonth = ymOf now) :
    (incrementDownloadCount w now pid).monthlyDownloadMonth = w.monthlyDownloadMonth := by
  unfold incrementDownloadCount
  rw [resetMonthly_of_token_eq _ now (by simp [ht])]
  simp [ht]

/-- One consume step in the current month: the tier fields, the verification
flag and the month token are preserved, and the monthly counter either stays
or — only when the quota check passed — grows by exactly one while it was
still strictly below the effective limit. -/
theorem consume_step_month (s : Sys) (now : Instant) (f : FailSpec)
    (hm : s.user.monthlyDownloadMonth = ymOf now) :
    (consume s now f).2.user.subscription = s.user.subscription ∧
    (consume s now f).2.user.premiumExpiry = s.user.premiumExpiry ∧
    (consume s now f).2.user.isVerified = s.user.isVerified ∧
    (consume s now f).2.user.monthlyDownloadMonth = s.user.monthlyDownloadMonth ∧
    ((consume s now f).2.user.monthlyDownloads = s.user.monthlyDownloads ∨
      ((consume s now f).2.user.monthlyDownloads = s.user.monthlyDownloads + 1 ∧
        s.user.monthlyDownloads < monthlyLimitFor s.user now)) := by
  by_cases hb : s.user.isVerified = false
  · simp [consume, hb]
  · have hv : s.user.isVerified = true := by
      revert hb; cases s.user.isVerified <;> simp
    by_cases hok : ((canDownload s.user now).1).canDownload = false
    · simp [consume, hv, hok]
    · have hok' : ((canDownload s.user now).1).canDownload = true := by
        revert hok; cases ((canDownload s.user now).1).canDownload <;> simp
      have hlt : s.user.monthlyDownloads < monthlyLimitFor s.user now :=
        canDownload_monthly_lt s.user now hv hm hok'
      have hsnd : (canDownload s.user now).2 = postResetUser s.user now := by
        rw [canDownload_verified s.user now hv]
      have htok2 : (postResetUser s.user now).monthlyDownloadMonth = ymOf now :=
        postReset_token s.user now
      have hincm : (incrementDownloadCount ((canDownload s.user now).2) now
          s.product.id).monthlyDownloads = s.user.monthlyDownloads + 1 := by
        rw [hsnd, increment_monthly_of_token _ now _ htok2,
          postReset_monthly_of_token s.user now hm]
      have hinct : (incrementDownloadCount ((canDownload s.user now).2) now
          s.product.id).monthlyDownloadMonth = s.user.monthlyDownloadMonth := by
        rw [hsnd, increment_token_of_token _ now _ htok2, htok2, hm]
      have hincs : (incrementDownloadCount ((canDownload s.user now).2) now
          s.product.id).subscription = s.user.subscription := by simp
      have hince : (incrementDownloadCount ((canDownload s.user now).2) now
          s.product.id).premiumExpiry = s.user.premiumExpiry := by simp
      have hincv : (incrementDownloadCount ((canDownload s.user now).2) now
          s.product.id).isVerified = s.user.isVerified := by simp
      by_cases ha : s.product.isActive = false
      · simp [consume, hv, hok', ha]
      · by_cases hr : hasRecentRecord s.records s.user.id s.product.id now = true
        · simp [consume, hv, hok', ha, hr]
        · by_cases f1 : f.failDownloadSave = true
          · simp [consume, hv, hok', ha, hr, f1]
          · by_cases f2 : f.failUserSave = true
            · simp [consume, hv, hok', ha, hr, f1, f2]
            · by_cases f3 : f.failProductSave = true
              · simp [consume, hv, hok', ha, hr, f1, f2, f3, hincm, hinct, hincs,
                  hince, hincv, hlt]
              · by_cases f4 : f.failCommit = true
                · simp [consume, hv, hok', ha, hr, f1, f2, f3, f4, hincm, hinct,
                    hincs, hince, hincv, hlt]
                · simp [consume, hv, hok', ha, hr, f1, f2, f3, f4, hincm, hinct,
                    hincs, hince, hincv, hlt]

@[simp]
theorem consumeTrace_nil (s : Sys) : consumeTrace s [] = s := rfl

theorem consumeTrace_cons (s : Sys) (c : Instant × FailSpec)
    (calls : List (Instant × FailSpec)) :
    consumeTrace s (c :: calls) = consumeTrace (consume s c.1 c.2).2 calls := rfl

/-- Inductive invariant: a whole trace of consume calls inside the account's
current month, with a constant premium-activity status, keeps the monthly
counter within the effective limit and preserves the tier fields. -/
theorem consumeTrace_month_inv (calls : List (Instant × FailSpec)) :
    ∀ (s : Sys) (b : Bool),
      (∀ c ∈ calls, ymOf c.1 = s.user.monthlyDownloadMonth) →
      (∀ c ∈ calls, premiumActive s.user c.1 = b) →
      s.user.monthlyDownloads ≤ (if b then 500 else 350) →
      ((consumeTrace s calls).user.monthlyDownloads ≤ (if b then 500 else 350) ∧
        (consumeTrace s calls).user.subscription = s.user.subscription ∧
        (consumeTrace s calls).user.premiumExpiry = s.user.premiumExpiry ∧
        (consumeTrace s calls).user.isVerified = s.user.isVerified ∧
        (consumeTrace s calls).user.monthlyDownloadMonth = s.user.monthlyDownloadMonth) := by
  induction calls with
  | nil => intro s b hm ha h0; exact ⟨h0, rfl, rfl, rfl, rfl⟩
  | cons c cs ih =>
      intro s b hm ha h0
      have hmc : s.user.monthlyDownloadMonth = ymOf c.1 := (hm c (by simp)).symm
      obtain ⟨e1, e2, e3, e4, e5⟩ := consume_step_month s c.1 c.2 hmc
      have hLc : monthlyLimitFor s.user c.1 = (if b then 500 else 350) := by
        unfold monthlyLimitFor
        rw [ha c (by simp)]
      have h0' : (consume s c.1 c.2).2.user.monthlyDownloads ≤ (if b then 500 else 350) := by
        rcases e5 with h | ⟨hinc, hlt⟩
        · rw [h]; exact h0
        · rw [hinc, hLc] at *; omega
      have hm' : ∀ d ∈ cs, ymOf d.1 = (consume s c.1 c.2).2.user.monthlyDownloadMonth := by
        intro d hd
        rw [e4]
        exact hm d (by simp [hd])
      have ha' : ∀ d ∈ cs, premiumActive (consume s c.1 c.2).2.user d.1 = b := by
        intro d hd
        rw [premiumActive_congr (consume s c.1 c.2).2.user s.user d.1 e1 e2]
        exact ha d (by simp [hd])
      obtain ⟨g1, g2, g3, g4, g5⟩ := ih (consume s c.1 c.2).2 b hm' ha' h0'
      rw [consumeTrace_cons]
      exact ⟨g1, g2.trans e1, g3.trans e2, g4.trans e3, g5.trans e4⟩

/-- Claim C1: over any sequence of consume calls made inside the account's
current month under a constant premium-activity status, the committed
monthly counter never exceeds the effective monthly limit at any point of
the trace; and at any point where the counter has reached the limit, any
further same-month consume call on the verified account is Denied with the
committed state unchanged — never Accepted. -/
theorem monthly_safety_of_consume_trace (s : Sys)
    (calls : List (Instant × FailSpec)) (b : Bool)
    (hm : ∀ c ∈ calls, ymOf c.1 = s.user.monthlyDownloadMonth)
    (ha : ∀ c ∈ calls, premiumActive s.user c.1 = b)
    (h0 : s.user.monthlyDownloads ≤ (if b then 500 else 350)) :
    (∀ n, (consumeTrace s (calls.take n)).user.monthlyDownloads ≤
      (if b then 500 else 350)) ∧
    (∀ (n : Nat) (now : Instant) (f : FailSpec),
      s.user.isVerified = true →
      ymOf now = s.user.monthlyDownloadMonth →
      premiumActive s.user now = b →
      (if b then 500 else 350) ≤ (consumeTrace s (calls.take n)).user.monthlyDownloads →
      consume (consumeTrace s (calls.take n)) now f =
        (.denied ((canDownload (consumeTrace s (calls.take n)).user now).1),
         consumeTrace s (calls.take n))) := by
  have key : ∀ n,
      ((consumeTrace s (calls.take n)).user.monthlyDownloads ≤ (if b then 500 else 350) ∧
        (consumeTrace s (calls.take n)).user.subscription = s.user.subscription ∧
        (consumeTrace s (calls.take n)).user.premiumExpiry = s.user.premiumExpiry ∧
        (consumeTrace s (calls.take n)).user.isVerified = s.user.isVerified ∧
        (consumeTrace s (calls.take n)).user.monthlyDownloadMonth =
          s.user.monthlyDownloadMonth) := by
    intro n
    exact consumeTrace_month_inv (calls.take n) s b
      (fun c hc => hm c (List.take_subset n calls hc))
      (fun c hc => ha c (List.take_subset n calls hc)) h0
  refine ⟨fun n => (key n).1, ?_⟩
  intro n now f hv hbm hba hge
  obtain ⟨hb1, hsub, hexp, hver, htok⟩ := key n
  apply consume_at_limit
  · rw [hver, hv]
  · rw [htok]
    exact hbm.symm
  · have hlim : monthlyLimitFor (consumeTrace s (calls.take n)).user now =
        (if b then 500 else 350) := by
      unfold monthlyLimitFor
      rw [premiumActive_congr (consumeTrace s (calls.take n)).user s.user now hsub hexp, hba]
    rw [hlim]
    exact hge

/-- A free-tier account already at the 350 monthly limit. -/
def atLimitSys : Sys :=
  { user := { freshUser with monthlyDownloads := 350 }
    product := baseProduct
    records := [] }

/-- Witness for claim C1 at a free-tier account sitting at its monthly
limit: the bound holds along a one-call trace, and the call itself is
Denied with the state unchanged. -/
theorem monthly_safety_of_consume_trace_witness :
    atLimitSys.user.monthlyDownloads ≤ (if false then 500 else 350) ∧
      (∀ n, (consumeTrace atLimitSys ([(nowA, noFail)].take n)).user.monthlyDownloads ≤
        (if false then 500 else 350)) ∧
      consume (consumeTrace atLimitSys ([(nowA, noFail)].take 0)) nowA noFail =
        (.denied ((canDownload (consumeTrace atLimitSys
            ([(nowA, noFail)].take 0)).user nowA).1),
         consumeTrace atLimitSys ([(nowA, noFail)].take 0)) :=
  ⟨by decide,
    (monthly_safety_of_consume_trace atLimitSys [(nowA, noFail)] false
        (by decide) (by decide) (by decide)).1,
    (monthly_safety_of_consume_trace atLimitSys [(nowA, noFail)] false
        (by decide) (by decide) (by decide)).2 0 nowA noFail rfl (by decide)
      (by decide) (by decide)⟩

end Xeriwo
